import Mathlib

/-!
Verification of the SQLiteCpp wrapper layer (SRombauts/SQLiteCpp).

This file gives a shallow embedding of the wrapper classes found under
`src/` (Statement, StatementExecutor, StatementPtr, Transaction, Database,
Backup, Column, Row iterators) together with a small model of the native
SQLite engine boundary that the wrapper delegates to (sqlite3_step,
sqlite3_reset, sqlite3_clear_bindings, sqlite3_exec, ...).  The native
engine itself is not part of the repository; it is modelled here according
to its documented semantics (e.g. `sqlite3_reset` retains parameter
bindings, `sqlite3_clear_bindings` sets them all to NULL,
`sqlite3_column_text` yields a NULL pointer exactly for SQL NULL values).

Stateful C++ methods become explicit state-passing functions; methods that
throw become functions into `Except SQLite.Exception _`.
-/

namespace SQLite

/-- Primary result code SQLITE_OK (sqlite3.h). -/
def SQLITE_OK : Int := 0

/-- Primary result code SQLITE_BUSY (sqlite3.h). -/
def SQLITE_BUSY : Int := 5

/-- Primary result code SQLITE_LOCKED (sqlite3.h). -/
def SQLITE_LOCKED : Int := 6

/-- Primary result code SQLITE_MISUSE (sqlite3.h). -/
def SQLITE_MISUSE : Int := 21

/-- Primary result code SQLITE_ROW (sqlite3.h). -/
def SQLITE_ROW : Int := 100

/-- Primary result code SQLITE_DONE (sqlite3.h). -/
def SQLITE_DONE : Int := 101

/-- A dynamically typed SQLite value (the storage classes used by the
wrapper: NULL, INTEGER, TEXT, BLOB). -/
inductive SqlValue where
  | null : SqlValue
  | integer (i : Int) : SqlValue
  | text (s : String) : SqlValue
  | blob (b : List Nat) : SqlValue
deriving DecidableEq, Repr

/-- Model of a native database connection handle (`sqlite3*`): the error
state queried by `sqlite3_errcode` / `sqlite3_errmsg`, the change counter
queried by `sqlite3_changes`, and the busy-timeout setting. -/
structure NativeConn where
  errcode : Int
  extendedErrcode : Int
  errmsg : String
  changes : Int
  busyTimeout : Int

/-- Model of a native prepared-statement handle (`sqlite3_stmt*`): the
owning connection, the column names of the result set, the current
parameter bindings (one slot per parameter), the result rows as a function
of the bindings (the engine's evaluation of the compiled query), a cursor
of how many rows have been stepped past since the last reset, the number
of rows the statement modifies when run to completion, and an optional
pending engine fault (the code the next `sqlite3_step` reports, modelling
busy / locked / constraint failures). -/
structure NativeStmt where
  conn : NativeConn
  columnNames : List String
  bindings : List SqlValue
  query : List SqlValue → List (List SqlValue)
  pos : Nat
  dmlChanges : Int
  fault : Option Int

/-- Model of `sqlite3_errcode`. -/
def sqlite3_errcode (c : NativeConn) : Int := c.errcode

/-- Model of `sqlite3_changes` (on a connection handle). -/
def sqlite3_changes (c : NativeConn) : Int := c.changes

/-- Model of `sqlite3_errstr`: a string determined solely by the result
code. -/
def sqlite3_errstr (code : Int) : String := "sqlite-errstr:" ++ toString code

/-- Model of `sqlite3_busy_timeout`: records the timeout on the connection
and reports success. -/
def sqlite3_busy_timeout (c : NativeConn) (ms : Int) : Int × NativeConn :=
  (SQLITE_OK, { c with busyTimeout := ms })

/-- Model of `sqlite3_reset`: rewinds the row cursor and clears any pending
fault.  Per the native documentation it does NOT touch the parameter
bindings. -/
def sqlite3_reset (n : NativeStmt) : Int × NativeStmt :=
  (SQLITE_OK, { n with pos := 0, fault := none })

/-- Model of `sqlite3_clear_bindings`: sets every parameter slot back to
NULL. -/
def sqlite3_clear_bindings (n : NativeStmt) : Int × NativeStmt :=
  (SQLITE_OK, { n with bindings := n.bindings.map fun _ => SqlValue.null })

/-- Model of `sqlite3_step`: a pending fault is reported (and recorded as
the connection's last error); otherwise the cursor advances, yielding
SQLITE_ROW while rows remain and SQLITE_DONE once the query is exhausted
(at which point the connection's change counter reflects the rows the
statement modified). -/
def sqlite3_step (n : NativeStmt) : Int × NativeStmt :=
  match n.fault with
  | some c => (c, { n with fault := none, conn := { n.conn with errcode := c } })
  | none =>
    if n.pos < (n.query n.bindings).length then
      (SQLITE_ROW, { n with pos := n.pos + 1 })
    else
      (SQLITE_DONE, { n with pos := n.pos + 1,
                             conn := { n.conn with changes := n.dmlChanges } })

/-- Model of `sqlite3_column_count`. -/
def sqlite3_column_count (n : NativeStmt) : Int := n.columnNames.length

/-- Model of `sqlite3_column_name` for indices in `[0, column count)`. -/
def sqlite3_column_name (n : NativeStmt) (i : Int) : String :=
  n.columnNames.getD i.toNat ""

/-- The value stored in column `i` of the statement's current row (the row
most recently produced by `sqlite3_step`). -/
def NativeStmt.columnValue (n : NativeStmt) (i : Int) : SqlValue :=
  ((n.query n.bindings).getD (n.pos - 1) []).getD i.toNat SqlValue.null

/-- The engine's text rendering of a non-NULL value (the conversions
applied by `sqlite3_column_text`). -/
def sqlValueText : SqlValue → String
  | SqlValue.null => ""
  | SqlValue.integer i => toString i
  | SqlValue.text s => s
  | SqlValue.blob b => String.mk (b.map Char.ofNat)

/-- Model of `sqlite3_column_text`: a NULL pointer (here `none`) exactly
when the stored value is SQL NULL, otherwise a pointer to the engine's
text rendering of the value. -/
def sqlite3_column_text (n : NativeStmt) (i : Int) : Option String :=
  match n.columnValue i with
  | SqlValue.null => none
  | v => some (sqlValueText v)

/-- `SQLite::Exception` (include/SQLiteCpp/Exception.h): a message plus a
primary and an extended result code. -/
structure Exception where
  what : String
  errcode : Int
  extendedErrcode : Int
deriving DecidableEq, Repr

/-- `Exception(const std::string&)`: message only, codes set to the
sentinel -1 (Exception.h lines 53-58). -/
def Exception.fromMessage (msg : String) : Exception :=
  { what := msg, errcode := -1, extendedErrcode := -1 }

/-- `Exception(sqlite3*)`: message and both codes taken from the
connection. -/
def Exception.fromHandle (c : NativeConn) : Exception :=
  { what := c.errmsg, errcode := c.errcode, extendedErrcode := c.extendedErrcode }

/-- `Exception(sqlite3*, int ret)`: message and extended code from the
connection, primary code from the failing call's return value. -/
def Exception.fromHandleRet (c : NativeConn) (ret : Int) : Exception :=
  { what := c.errmsg, errcode := ret, extendedErrcode := c.extendedErrcode }

/-- Modelled from the spec: the `Exception(message, ret)` constructor used
by StatementExecutor.cpp comes from an Exception.h revision not present
under src/; per the spec's error taxonomy the thrown error carries the
descriptive message and the failing call's primary code (no native
connection context, so the extended code stays at the sentinel -1). -/
def Exception.fromMessageRet (msg : String) (ret : Int) : Exception :=
  { what := msg, errcode := ret, extendedErrcode := -1 }

/-- `Exception::getErrorCode` accessor. -/
def Exception.getErrorCode (e : Exception) : Int := e.errcode

/-- A `Column` (src/src/Column.cpp): shares the statement handle and
remembers the column index. -/
structure Column where
  handle : NativeStmt
  index : Int

/-- `Column::getText(apDefaultValue = "")` (src/src/Column.cpp lines
66-70): fetches the engine's text pointer for the value and substitutes
the caller-supplied default when that pointer is NULL. -/
def Column.getText (c : Column) (apDefaultValue : String) : String :=
  match sqlite3_column_text c.handle c.index with
  | some pText => pText
  | none => apDefaultValue

/-- `Column::getText()` with the default argument `""` left implicit. -/
def Column.getTextNoArg (c : Column) : String := c.getText ""

/-- The `Statement` class of src/src/Statement.cpp: the shared native
handle, the cached column count, the lazily built column-name-to-index
map, and the two step-state flags (`mbOk` = a row is available,
`mbDone` = the query has finished executing). -/
structure Statement where
  native : NativeStmt
  mColumnCount : Int
  mColumnNames : List (String × Int)
  mbOk : Bool
  mbDone : Bool

/-- The `Statement` constructor: prepares the handle and caches
`sqlite3_column_count`; both flags start false and the name map starts
empty. -/
def Statement.prepare (n : NativeStmt) : Statement :=
  { native := n, mColumnCount := sqlite3_column_count n,
    mColumnNames := [], mbOk := false, mbDone := false }

/-- `Statement::reset()` (src/src/Statement.cpp lines 69-76): clears both
flags, then `sqlite3_reset`, then `check(ret)`. -/
def Statement.reset (s : Statement) : Except Exception Statement :=
  let s := { s with mbOk := false, mbDone := false }
  let (ret, n) := sqlite3_reset s.native
  if ret = SQLITE_OK then Except.ok { s with native := n }
  else Except.error (Exception.fromHandleRet n.conn ret)

/-- `Statement::clearBindings()` (src/src/Statement.cpp lines 78-83):
`sqlite3_clear_bindings`, then `check(ret)`. -/
def Statement.clearBindings (s : Statement) : Except Exception Statement :=
  let (ret, n) := sqlite3_clear_bindings s.native
  if ret = SQLITE_OK then Except.ok { s with native := n }
  else Except.error (Exception.fromHandleRet n.conn ret)

/-- `Statement::executeStep()` (src/src/Statement.cpp lines 242-269): when
not Done, one native step; SQLITE_ROW sets `mbOk`, SQLITE_DONE sets
`mbDone`, anything else throws the translated native error.  When already
Done it throws a usage error. -/
def Statement.executeStep (s : Statement) : Except Exception (Bool × Statement) :=
  if s.mbDone = false then
    let (ret, n) := sqlite3_step s.native
    if ret = SQLITE_ROW then
      Except.ok (true, { s with mbOk := true, native := n })
    else if ret = SQLITE_DONE then
      Except.ok (false, { s with mbOk := false, mbDone := true, native := n })
    else
      Except.error (Exception.fromHandleRet n.conn ret)
  else
    Except.error (Exception.fromMessage "Statement needs to be reseted.")

/-- `Statement::exec()` (src/src/Statement.cpp lines 272-302): when not
Done, one native step; SQLITE_DONE returns `sqlite3_changes` on the
connection, SQLITE_ROW throws the exec-on-query usage error, anything
else throws the translated native error.  When already Done it throws a
usage error. -/
def Statement.exec (s : Statement) : Except Exception (Int × Statement) :=
  if s.mbDone = false then
    let (ret, n) := sqlite3_step s.native
    if ret = SQLITE_DONE then
      Except.ok (sqlite3_changes n.conn,
                 { s with mbOk := false, mbDone := true, native := n })
    else if ret = SQLITE_ROW then
      Except.error (Exception.fromMessage "exec() does not expect results. Use executeStep.")
    else
      Except.error (Exception.fromHandleRet n.conn ret)
  else
    Except.error (Exception.fromMessage "Statement need to be reseted.")

/-- `Statement::checkRow()` (StatementExecutor.h lines 301-307): throws
when no row is available. -/
def Statement.checkRow (s : Statement) : Except Exception Unit :=
  if s.mbOk = false then
    Except.error (Exception.fromMessage
      "No row to get a column from. executeStep() was not called, or returned false.")
  else
    Except.ok ()

/-- `Statement::checkIndex(aIndex)` (StatementExecutor.h lines 312-318):
throws when the index lies outside `[0, mColumnCount)`. -/
def Statement.checkIndex (s : Statement) (aIndex : Int) : Except Exception Unit :=
  if aIndex < 0 ∨ aIndex ≥ s.mColumnCount then
    Except.error (Exception.fromMessage "Column index out of range.")
  else
    Except.ok ()

/-- `Statement::getColumn(aIndex)` (src/src/Statement.cpp lines 306-313):
`checkRow`, `checkIndex`, then a Column sharing the statement handle. -/
def Statement.getColumn (s : Statement) (aIndex : Int) : Except Exception Column :=
  match s.checkRow with
  | Except.error e => Except.error e
  | Except.ok _ =>
    match s.checkIndex aIndex with
    | Except.error e => Except.error e
    | Except.ok _ => Except.ok { handle := s.native, index := aIndex }

/-- `mColumnNames[pName] = i` on a `std::map`: insert or overwrite the
entry for the key. -/
def assocSet (m : List (String × Int)) (k : String) (v : Int) : List (String × Int) :=
  match m with
  | [] => [(k, v)]
  | (k', v') :: rest =>
    if k' = k then (k', v) :: rest else (k', v') :: assocSet rest k v

/-- `mColumnNames.find(apName)` on a `std::map`. -/
def assocFind (m : List (String × Int)) (k : String) : Option Int :=
  match m with
  | [] => none
  | (k', v') :: rest => if k' = k then some v' else assocFind rest k

/-- The lazy build of the column-name map in `Statement::getColumn(name)`
(src/src/Statement.cpp lines 321-328): for every index i in
`[0, mColumnCount)`, `mColumnNames[sqlite3_column_name(i)] = i`. -/
def buildColumnNames (n : NativeStmt) (count : Int) : List (String × Int) :=
  (List.range count.toNat).foldl
    (fun m i => assocSet m (sqlite3_column_name n (Int.ofNat i)) (Int.ofNat i)) []

/-- `Statement::getColumn(apName)` (src/src/Statement.cpp lines 317-338):
`checkRow`, lazily build the name map when empty, look the name up
(throwing when absent), and return a Column sharing the handle together
with the statement carrying the (possibly freshly built) cache. -/
def Statement.getColumnByName (s : Statement) (apName : String) :
    Except Exception (Column × Statement) :=
  match s.checkRow with
  | Except.error e => Except.error e
  | Except.ok _ =>
    let names :=
      if s.mColumnNames.isEmpty then buildColumnNames s.native s.mColumnCount
      else s.mColumnNames
    match assocFind names apName with
    | none => Except.error (Exception.fromMessage "Unknown column name.")
    | some i =>
      Except.ok ({ handle := s.native, index := i }, { s with mColumnNames := names })

/-- The `StatementExecutor` class (src/src/StatementExecutor.cpp and
include/SQLiteCpp/StatementExecutor.h): the native handle plus the
`mbHasRow` / `mbDone` step-state flags. -/
structure StatementExecutor where
  native : NativeStmt
  mbHasRow : Bool
  mbDone : Bool

/-- `StatementExecutor::tryExecuteStep()` (StatementExecutor.cpp lines
125-143): when already Done, report SQLITE_MISUSE without stepping;
otherwise one native step, recording `mbHasRow` on SQLITE_ROW and
`mbDone` on SQLITE_DONE. -/
def StatementExecutor.tryExecuteStep (e : StatementExecutor) :
    Int × StatementExecutor :=
  if e.mbDone then
    (SQLITE_MISUSE, e)
  else
    let (ret, n) := sqlite3_step e.native
    if ret = SQLITE_ROW then
      (ret, { e with mbHasRow := true, native := n })
    else
      (ret, { e with mbHasRow := false, mbDone := decide (ret = SQLITE_DONE),
                     native := n })

/-- `StatementExecutor::tryReset()` (StatementExecutor.cpp lines 75-80):
clears both flags, then `sqlite3_reset`. -/
def StatementExecutor.tryReset (e : StatementExecutor) : Int × StatementExecutor :=
  let e := { e with mbHasRow := false, mbDone := false }
  let (ret, n) := sqlite3_reset e.native
  (ret, { e with native := n })

/-- `StatementExecutor::executeStep()` (StatementExecutor.cpp lines
82-99): a try-step; result codes other than SQLITE_ROW / SQLITE_DONE are
thrown, as the native error when the connection's last error matches the
code and as a needs-reset usage error otherwise; otherwise `mbHasRow` is
returned. -/
def StatementExecutor.executeStep (e : StatementExecutor) :
    Except Exception (Bool × StatementExecutor) :=
  let (ret, e') := e.tryExecuteStep
  if ret ≠ SQLITE_ROW ∧ ret ≠ SQLITE_DONE then
    if ret = sqlite3_errcode e'.native.conn then
      Except.error (Exception.fromHandleRet e'.native.conn ret)
    else
      Except.error (Exception.fromMessageRet "Statement needs to be reseted" ret)
  else
    Except.ok (e'.mbHasRow, e')

/-- `StatementExecutor::exec()` (StatementExecutor.cpp lines 102-123): a
try-step; SQLITE_DONE returns `sqlite3_changes` on the connection,
SQLITE_ROW throws the exec-on-query usage error, other codes are thrown
as the native error or a needs-reset usage error. -/
def StatementExecutor.exec (e : StatementExecutor) :
    Except Exception (Int × StatementExecutor) :=
  let (ret, e') := e.tryExecuteStep
  if ret ≠ SQLITE_DONE then
    if ret = SQLITE_ROW then
      Except.error (Exception.fromMessage "exec() does not expect results. Use executeStep.")
    else if ret = sqlite3_errcode e'.native.conn then
      Except.error (Exception.fromHandleRet e'.native.conn ret)
    else
      Except.error (Exception.fromMessageRet "Statement needs to be reseted" ret)
  else
    Except.ok (sqlite3_changes e'.native.conn, e')

/-- The `StatementPtr` struct (src/src/StatementPtr.cpp and
include/SQLiteCpp/StatementPtr.h): the shared native handle plus
`mCurrentStep`, the step counter since the last reset. -/
structure StatementPtr where
  native : NativeStmt
  mCurrentStep : Nat

/-- `StatementPtr::reset()` (StatementPtr.cpp lines 31-35): zero the step
counter, then `sqlite3_reset`. -/
def StatementPtr.reset (p : StatementPtr) : Int × StatementPtr :=
  let p := { p with mCurrentStep := 0 }
  let (ret, n) := sqlite3_reset p.native
  (ret, { p with native := n })

/-- `StatementPtr::step()` (StatementPtr.cpp lines 37-41): bump the step
counter, then `sqlite3_step`. -/
def StatementPtr.step (p : StatementPtr) : Int × StatementPtr :=
  let p := { p with mCurrentStep := p.mCurrentStep + 1 }
  let (ret, n) := sqlite3_step p.native
  (ret, { p with native := n })

/-- The `Database` class (src/src/Database.cpp): the native connection
handle, the engine's outcome for `sqlite3_exec` of each SQL text (an
oracle for the un-modelled query engine), and the trace of SQL texts
successfully executed through the connection. -/
structure Database where
  conn : NativeConn
  execResult : String → Int
  execLog : List String

/-- Model of `sqlite3_exec`: per the oracle, either the SQL is applied
(appended to the trace) or the failure code is reported and recorded as
the connection's last error. -/
def sqlite3_exec (db : Database) (sql : String) : Int × Database :=
  let ret := db.execResult sql
  if ret = SQLITE_OK then
    (ret, { db with execLog := db.execLog ++ [sql] })
  else
    (ret, { db with conn := { db.conn with errcode := ret } })

/-- `Database::exec(apQueries)` (src/src/Database.cpp lines 105-112):
`sqlite3_exec`, `check(ret)`, then the connection's change counter. -/
def Database.exec (db : Database) (sql : String) : Except Exception (Int × Database) :=
  let (ret, db') := sqlite3_exec db sql
  if ret = SQLITE_OK then
    Except.ok (sqlite3_changes db'.conn, db')
  else
    Except.error (Exception.fromHandleRet db'.conn ret)

/-- The `Database` constructor (src/src/Database.cpp lines 29-48),
parameterised by the native open call's outcome `openRet` and the freshly
opened connection `conn`: on failure the object is not constructed and
`Exception(sqlite3_errstr(ret))` is thrown; on success the busy timeout
is applied when and only when the argument is positive. -/
def Database.construct (openRet : Int) (conn : NativeConn)
    (execResult : String → Int) (aBusyTimeoutMs : Int) : Except Exception Database :=
  if openRet ≠ SQLITE_OK then
    Except.error (Exception.fromMessage (sqlite3_errstr openRet))
  else
    let db : Database := { conn := conn, execResult := execResult, execLog := [] }
    if aBusyTimeoutMs > 0 then
      Except.ok { db with conn := (sqlite3_busy_timeout db.conn aBusyTimeoutMs).2 }
    else
      Except.ok db

/-- The `Transaction` class (src/src/Transaction.cpp): just the
`mbCommited` flag; BEGIN has been issued at construction. -/
structure Transaction where
  mbCommited : Bool
deriving DecidableEq, Repr

/-- The `Transaction` constructor (Transaction.cpp lines 21-26): issue
BEGIN through the Database; on failure the object is not constructed. -/
def Transaction.begin (db : Database) : Except Exception (Transaction × Database) :=
  match db.exec "BEGIN" with
  | Except.ok (_, db') => Except.ok ({ mbCommited := false }, db')
  | Except.error e => Except.error e

/-- `Transaction::commit()` (Transaction.cpp lines 47-58): when not yet
committed, issue COMMIT and flip the flag; otherwise throw
"Transaction already commited". -/
def Transaction.commit (t : Transaction) (db : Database) :
    Except Exception (Transaction × Database) :=
  if t.mbCommited = false then
    match db.exec "COMMIT" with
    | Except.ok (_, db') => Except.ok ({ t with mbCommited := true }, db')
    | Except.error e => Except.error e
  else
    Except.error (Exception.fromMessage "Transaction already commited")

/-- `Transaction::~Transaction()` (Transaction.cpp lines 29-44): when not
committed, issue ROLLBACK and swallow any `SQLite::Exception` it raises
(the destructor never propagates an exception, so its type here is plain
`Database`, not `Except`). -/
def Transaction.destruct (t : Transaction) (db : Database) : Database :=
  if t.mbCommited = false then
    match db.exec "ROLLBACK" with
    | Except.ok (_, db') => db'
    | Except.error _ => db
  else
    db

/-- The native backup handle (`sqlite3_backup*`): pages remaining, total
page count, and an optional pending engine fault for the next step. -/
structure NativeBackup where
  remaining : Nat
  pagecount : Nat
  fault : Option Int
deriving DecidableEq, Repr

/-- Model of `sqlite3_backup_step`: a pending fault (busy, locked, or a
real error) is reported; otherwise up to `nPage` pages are copied (all of
them when `nPage` is negative), yielding SQLITE_DONE when none remain
afterwards and SQLITE_OK otherwise. -/
def sqlite3_backup_step (nb : NativeBackup) (nPage : Int) : Int × NativeBackup :=
  match nb.fault with
  | some c => (c, { nb with fault := none })
  | none =>
    let copied := if nPage < 0 then nb.remaining else min nb.remaining nPage.toNat
    let rem := nb.remaining - copied
    if rem = 0 then (SQLITE_DONE, { nb with remaining := 0 })
    else (SQLITE_OK, { nb with remaining := rem })

/-- `Backup::executeStep(aNumPage = -1)` (src/src/Backup.cpp lines
82-92): one native backup step; SQLITE_OK, SQLITE_DONE, SQLITE_BUSY and
SQLITE_LOCKED are returned to the caller, every other result code is
thrown as `Exception(sqlite3_errstr(res))`. -/
def Backup.executeStep (nb : NativeBackup) (aNumPage : Int) :
    Except Exception (Int × NativeBackup) :=
  let (res, nb') := sqlite3_backup_step nb aNumPage
  if res ≠ SQLITE_OK ∧ res ≠ SQLITE_DONE ∧ res ≠ SQLITE_BUSY ∧ res ≠ SQLITE_LOCKED then
    Except.error (Exception.fromMessage (sqlite3_errstr res))
  else
    Except.ok (res, nb')

/-- `Row::ColumnIterator` (include/SQLiteCpp/Row.h): the shared
`StatementPtr` (its identity abstracted to an optional numeric id, `none`
for a null shared_ptr), the row number captured at construction, and the
column index. -/
structure ColumnIterator where
  mpStatement : Option Nat
  mRowID : Nat
  mID : Int
deriving DecidableEq, Repr

/-- `Row::ColumnIterator::operator==` (src/src/Row.cpp lines 75-90):
unequal column indices differ; two null statement handles compare equal;
distinct handles differ; otherwise the row numbers decide. -/
def ColumnIterator.beq (a b : ColumnIterator) : Bool :=
  if a.mID ≠ b.mID then false
  else if a.mpStatement.isNone && b.mpStatement.isNone then true
  else if a.mpStatement ≠ b.mpStatement then false
  else decide (a.mRowID = b.mRowID)

/-- `StatementExecutor::RowIterator` (StatementExecutor.h lines 173-225):
the weak executor pointer is modelled by what `lock()` yields — `none`
when expired or default-constructed — plus the row number `mID`. -/
structure RowIterator where
  mpRow : Option Nat
  mID : Nat
deriving DecidableEq, Repr

/-- `StatementExecutor::RowIterator::operator==` (StatementExecutor.cpp
lines 207-219): both locks null compare equal; distinct locks differ;
otherwise the row numbers decide. -/
def RowIterator.beq (a b : RowIterator) : Bool :=
  let left := a.mpRow
  let right := b.mpRow
  if left.isNone && right.isNone then true
  else if left ≠ right then false
  else decide (a.mID = b.mID)

/-- A concrete connection handle used to instantiate the theorems below. -/
def emptyConn : NativeConn :=
  { errcode := 0, extendedErrcode := 0, errmsg := "", changes := 0, busyTimeout := 0 }

/-- A concrete one-column, one-row query used to instantiate the theorems
below. -/
def sampleQuery : List SqlValue → List (List SqlValue) :=
  fun _ => [[SqlValue.integer 2]]

/-- A concrete prepared-statement handle used to instantiate the theorems
below. -/
def sampleNative : NativeStmt :=
  { conn := emptyConn, columnNames := ["id"], bindings := [SqlValue.null],
    query := sampleQuery, pos := 0, dmlChanges := 0, fault := none }

/-- An engine oracle on which every `sqlite3_exec` succeeds. -/
def allOkEngine : String → Int := fun _ => SQLITE_OK

/-- An engine oracle on which every `sqlite3_exec` reports SQLITE_BUSY. -/
def allBusyEngine : String → Int := fun _ => SQLITE_BUSY

/-- C1: a Statement that has reached Done and has not been reset throws
from `executeStep()` — in the Statement.cpp revision with the fixed
needs-reset message, and in the StatementExecutor revision through the
SQLITE_MISUSE code of `tryExecuteStep` (whichever exception branch the
connection's last error selects); in particular it never returns false. -/
theorem executeStep_after_done_throws (s : Statement) (e : StatementExecutor)
    (hs : s.mbDone = true) (he : e.mbDone = true) :
    s.executeStep = Except.error (Exception.fromMessage "Statement needs to be reseted.")
    ∧ e.executeStep = Except.error
        (if SQLITE_MISUSE = sqlite3_errcode e.native.conn then
          Exception.fromHandleRet e.native.conn SQLITE_MISUSE
        else
          Exception.fromMessageRet "Statement needs to be reseted" SQLITE_MISUSE)
    ∧ ∀ (b : Bool) (e' : StatementExecutor), e.executeStep ≠ Except.ok (b, e') := by
  have hexec : e.executeStep = Except.error
      (if SQLITE_MISUSE = sqlite3_errcode e.native.conn then
        Exception.fromHandleRet e.native.conn SQLITE_MISUSE
      else
        Exception.fromMessageRet "Statement needs to be reseted" SQLITE_MISUSE) := by
    simp only [StatementExecutor.executeStep, StatementExecutor.tryExecuteStep, he,
      if_true, ite_true]
    norm_num [SQLITE_MISUSE, SQLITE_ROW, SQLITE_DONE]
    split <;> rfl
  refine ⟨?_, hexec, ?_⟩
  · simp [Statement.executeStep, hs]
  · intro b e' hcontra
    rw [hexec] at hcontra
    exact Except.noConfusion hcontra

/-- C1 witness: a concrete Done statement and executor. -/
theorem executeStep_after_done_throws_witness :
    (Statement.executeStep
        { native := sampleNative, mColumnCount := 1, mColumnNames := [],
          mbOk := false, mbDone := true })
      = Except.error (Exception.fromMessage "Statement needs to be reseted.") :=
  (executeStep_after_done_throws
    { native := sampleNative, mColumnCount := 1, mColumnNames := [],
      mbOk := false, mbDone := true }
    { native := sampleNative, mbHasRow := false, mbDone := true } rfl rfl).1

/-- C3: destroying a Transaction still in the Open state issues ROLLBACK
on its connection, and a rollback failure is swallowed inside the
destructor: the destructor still returns normally (its result is a plain
`Database`), leaving the connection as it was. -/
theorem transaction_dtor_rollback_suppressed (t : Transaction) (db : Database)
    (h : t.mbCommited = false) :
    (db.execResult "ROLLBACK" = SQLITE_OK →
      (t.destruct db).execLog = db.execLog ++ ["ROLLBACK"])
    ∧ (db.execResult "ROLLBACK" ≠ SQLITE_OK → t.destruct db = db) := by
  constructor
  · intro hok
    simp [Transaction.destruct, Database.exec, sqlite3_exec, h, hok]
  · intro hbad
    simp [Transaction.destruct, Database.exec, sqlite3_exec, h, hbad]

/-- C3 witness: a concrete open transaction over an all-failing engine
(the rollback error is swallowed) and over an all-succeeding engine. -/
theorem transaction_dtor_rollback_suppressed_witness :
    Transaction.destruct { mbCommited := false }
        { conn := emptyConn, execResult := allBusyEngine, execLog := [] }
      = { conn := emptyConn, execResult := allBusyEngine, execLog := [] } :=
  (transaction_dtor_rollback_suppressed { mbCommited := false }
    { conn := emptyConn, execResult := allBusyEngine, execLog := [] } rfl).2
    (by decide)

/-- C4: the first `commit()` on an open Transaction issues COMMIT and
flips the committed flag, and `commit()` on an already-committed
Transaction throws, whatever the connection state. -/
theorem transaction_commit_once_then_throws (t : Transaction) (db : Database)
    (h : t.mbCommited = false) (hok : db.execResult "COMMIT" = SQLITE_OK) :
    t.commit db = Except.ok (({ mbCommited := true } : Transaction),
      { db with execLog := db.execLog ++ ["COMMIT"] })
    ∧ ∀ db2 : Database,
        Transaction.commit { mbCommited := true } db2
          = Except.error (Exception.fromMessage "Transaction already commited") := by
  constructor
  · simp [Transaction.commit, Database.exec, sqlite3_exec, h, hok]
  · intro db2
    simp [Transaction.commit]

/-- C4 witness: a concrete fresh transaction committed twice. -/
theorem transaction_commit_once_then_throws_witness :
    Transaction.commit { mbCommited := false }
        { conn := emptyConn, execResult := allOkEngine, execLog := [] }
      = Except.ok (({ mbCommited := true } : Transaction),
          { conn := emptyConn, execResult := allOkEngine, execLog := ["COMMIT"] })
    ∧ Transaction.commit { mbCommited := true }
        { conn := emptyConn, execResult := allOkEngine, execLog := ["COMMIT"] }
      = Except.error (Exception.fromMessage "Transaction already commited") := by
  have h := transaction_commit_once_then_throws { mbCommited := false }
    { conn := emptyConn, execResult := allOkEngine, execLog := [] } rfl rfl
  exact ⟨h.1, h.2 _⟩

/-- C8: `Backup::executeStep` forwards the native result when it is
SQLITE_OK, SQLITE_DONE, SQLITE_BUSY or SQLITE_LOCKED (so the caller can
retry), and throws `Exception(sqlite3_errstr(res))` for every other
native result. -/
theorem backup_executeStep_retryable (nb nb' : NativeBackup) (aNumPage res : Int)
    (hstep : sqlite3_backup_step nb aNumPage = (res, nb')) :
    ((res = SQLITE_OK ∨ res = SQLITE_DONE ∨ res = SQLITE_BUSY ∨ res = SQLITE_LOCKED) →
      Backup.executeStep nb aNumPage = Except.ok (res, nb'))
    ∧ ((res ≠ SQLITE_OK ∧ res ≠ SQLITE_DONE ∧ res ≠ SQLITE_BUSY ∧ res ≠ SQLITE_LOCKED) →
      Backup.executeStep nb aNumPage
        = Except.error (Exception.fromMessage (sqlite3_errstr res))) := by
  constructor
  · intro hr
    unfold Backup.executeStep
    rw [hstep]
    rcases hr with h | h | h | h <;> simp [h, SQLITE_OK, SQLITE_DONE, SQLITE_BUSY, SQLITE_LOCKED]
  · intro hr
    unfold Backup.executeStep
    rw [hstep]
    simp [hr.1, hr.2.1, hr.2.2.1, hr.2.2.2]

/-- C8 witness: a two-page backup stepped with -1 reaches SQLITE_DONE
without throwing, and a backup whose engine reports an I/O error (code
10) throws. -/
theorem backup_executeStep_retryable_witness :
    Backup.executeStep { remaining := 2, pagecount := 2, fault := none } (-1)
      = Except.ok (SQLITE_DONE, { remaining := 0, pagecount := 2, fault := none })
    ∧ Backup.executeStep { remaining := 2, pagecount := 2, fault := some 10 } (-1)
      = Except.error (Exception.fromMessage (sqlite3_errstr 10)) := by
  constructor
  · exact (backup_executeStep_retryable
      { remaining := 2, pagecount := 2, fault := none }
      { remaining := 0, pagecount := 2, fault := none } (-1) SQLITE_DONE (by decide)).1
      (Or.inr (Or.inl rfl))
  · exact (backup_executeStep_retryable
      { remaining := 2, pagecount := 2, fault := some 10 }
      { remaining := 2, pagecount := 2, fault := none } (-1) 10 (by decide)).2
      (by refine ⟨?_, ?_, ?_, ?_⟩ <;> decide)

/-- C9: iterator equality.  A Row::ColumnIterator equality holds only
when the column indices agree and then either both shared statement
handles are null (the end-sentinel / detached state) or the handles are
identical and the captured row numbers agree; iterators over distinct
statement handles are never equal.  Likewise a RowIterator equality holds
only when both weak executor handles lock to null (expired or the
canonical end sentinel) or the handles are identical and the row numbers
agree; iterators whose locked handles differ are never equal. -/
theorem iterator_equality_characterisation
    (a b : ColumnIterator) (c d : RowIterator) :
    (ColumnIterator.beq a b = true →
      a.mID = b.mID ∧ ((a.mpStatement = none ∧ b.mpStatement = none)
        ∨ (a.mpStatement = b.mpStatement ∧ a.mRowID = b.mRowID)))
    ∧ (a.mpStatement ≠ b.mpStatement → ColumnIterator.beq a b = false)
    ∧ (RowIterator.beq c d = true →
      ((c.mpRow = none ∧ d.mpRow = none) ∨ (c.mpRow = d.mpRow ∧ c.mID = d.mID)))
    ∧ (c.mpRow ≠ d.mpRow → RowIterator.beq c d = false) := by
  refine ⟨?_, ?_, ?_, ?_⟩
  · intro h
    simp only [ColumnIterator.beq] at h
    split_ifs at h with h1 h2 h3
    · simp only [Bool.and_eq_true, Option.isNone_iff_eq_none] at h2
      exact ⟨not_ne_iff.mp h1, Or.inl h2⟩
    · exact ⟨not_ne_iff.mp h1, Or.inr ⟨not_ne_iff.mp h3, of_decide_eq_true h⟩⟩
  · intro hne
    have hnn : (a.mpStatement.isNone && b.mpStatement.isNone) = false := by
      rcases ha : a.mpStatement with _ | x
      · rcases hb : b.mpStatement with _ | y
        · exact absurd (ha.trans hb.symm) hne
        · simp [hb]
      · simp [ha]
    by_cases h1 : a.mID = b.mID <;>
      simp [ColumnIterator.beq, h1, hnn, hne]
  · intro h
    simp only [RowIterator.beq] at h
    split_ifs at h with h1 h2
    · simp only [Bool.and_eq_true, Option.isNone_iff_eq_none] at h1
      exact Or.inl h1
    · exact Or.inr ⟨not_ne_iff.mp h2, of_decide_eq_true h⟩
  · intro hne
    have hnn : (c.mpRow.isNone && d.mpRow.isNone) = false := by
      rcases hc : c.mpRow with _ | x
      · rcases hd : d.mpRow with _ | y
        · exact absurd (hc.trans hd.symm) hne
        · simp [hd]
      · simp [hc]
    simp [RowIterator.beq, hnn, hne]

/-- C9 witness: two iterators over distinct statement handles are not
equal, and two end sentinels are. -/
theorem iterator_equality_characterisation_witness :
    ColumnIterator.beq { mpStatement := some 1, mRowID := 0, mID := 0 }
        { mpStatement := some 2, mRowID := 0, mID := 0 } = false
    ∧ RowIterator.beq { mpRow := none, mID := 0 } { mpRow := none, mID := 0 } = true := by
  constructor
  · exact (iterator_equality_characterisation
      { mpStatement := some 1, mRowID := 0, mID := 0 }
      { mpStatement := some 2, mRowID := 0, mID := 0 }
      { mpRow := none, mID := 0 } { mpRow := none, mID := 0 }).2.1 (by decide)
  · decide

/-- C10: `Column::getText` returns the caller-supplied default (the empty
string when the argument is left at its default) when the stored value is
SQL NULL — never the engine's null pointer — and the engine's text for
the value otherwise. -/
theorem column_getText_default (c : Column) (d : String) :
    (c.handle.columnValue c.index = SqlValue.null →
      c.getText d = d ∧ c.getTextNoArg = "")
    ∧ (c.handle.columnValue c.index ≠ SqlValue.null →
      sqlite3_column_text c.handle c.index
          = some (sqlValueText (c.handle.columnValue c.index))
        ∧ c.getText d = sqlValueText (c.handle.columnValue c.index)) := by
  constructor
  · intro hnull
    constructor <;>
      simp [Column.getText, Column.getTextNoArg, sqlite3_column_text, hnull]
  · intro hnn
    have htext : sqlite3_column_text c.handle c.index
        = some (sqlValueText (c.handle.columnValue c.index)) := by
      unfold sqlite3_column_text
      cases hv : c.handle.columnValue c.index with
      | null => exact absurd hv hnn
      | integer i => rfl
      | text s => rfl
      | blob bb => rfl
    exact ⟨htext, by simp [Column.getText, htext]⟩

/-- C2: `reset()` resets the step state — both flags on the Statement,
the step counter on the StatementPtr, and the native row cursor — while
leaving every parameter binding unchanged, so the rows a re-execution
produces are computed from the identical bound values; `clearBindings()`
is the operation that sets every bound parameter back to NULL. -/
theorem reset_keeps_bindings_clearBindings_nulls (s : Statement) (p : StatementPtr) :
    (∃ s', s.reset = Except.ok s'
      ∧ s'.native.bindings = s.native.bindings
      ∧ s'.mbOk = false ∧ s'.mbDone = false ∧ s'.native.pos = 0
      ∧ s'.native.query s'.native.bindings = s.native.query s.native.bindings)
    ∧ (p.reset.2.mCurrentStep = 0 ∧ p.reset.2.native.bindings = p.native.bindings)
    ∧ (∃ s'', s.clearBindings = Except.ok s''
      ∧ s''.native.bindings = s.native.bindings.map fun _ => SqlValue.null) := by
  refine ⟨⟨{ s with mbOk := false, mbDone := false, native := { s.native with pos := 0, fault := none } }, ?_, rfl, rfl, rfl, rfl, rfl⟩, ⟨rfl, rfl⟩, ⟨{ s with native := { s.native with bindings := s.native.bindings.map fun _ => SqlValue.null } }, ?_, rfl⟩⟩
  · simp [Statement.reset, sqlite3_reset]
  · simp [Statement.clearBindings, sqlite3_clear_bindings]

/-- C5: on a Statement (and a StatementExecutor) not in the Done state,
`exec()` performs one native step; a row-ready result throws the
exec-on-query usage error, a finished result returns the connection's
count of rows modified by the statement, and any other native result
throws the translated native error. -/
theorem exec_branch_behaviour (s : Statement) (e : StatementExecutor)
    (hs : s.mbDone = false) (he : e.mbDone = false) :
    (s.native.fault = none → s.native.pos < (s.native.query s.native.bindings).length →
      s.exec = Except.error
        (Exception.fromMessage "exec() does not expect results. Use executeStep."))
    ∧ (s.native.fault = none → ¬ s.native.pos < (s.native.query s.native.bindings).length →
      s.exec = Except.ok (s.native.dmlChanges, { s with mbOk := false, mbDone := true, native := { s.native with pos := s.native.pos + 1, conn := { s.native.conn with changes := s.native.dmlChanges } } }))
    ∧ (∀ code, s.native.fault = some code → code ≠ SQLITE_ROW → code ≠ SQLITE_DONE →
      s.exec = Except.error
        (Exception.fromHandleRet { s.native.conn with errcode := code } code))
    ∧ (e.native.fault = none → e.native.pos < (e.native.query e.native.bindings).length →
      e.exec = Except.error
        (Exception.fromMessage "exec() does not expect results. Use executeStep."))
    ∧ (e.native.fault = none → ¬ e.native.pos < (e.native.query e.native.bindings).length →
      e.exec = Except.ok (e.native.dmlChanges, { e with mbHasRow := false, mbDone := true, native := { e.native with pos := e.native.pos + 1, conn := { e.native.conn with changes := e.native.dmlChanges } } }))
    ∧ (∀ code, e.native.fault = some code → code ≠ SQLITE_ROW → code ≠ SQLITE_DONE →
      e.exec = Except.error
        (Exception.fromHandleRet { e.native.conn with errcode := code } code)) := by
  refine ⟨?_, ?_, ?_, ?_, ?_, ?_⟩
  · intro hf hrow
    simp [Statement.exec, sqlite3_step, hs, hf, hrow, SQLITE_ROW, SQLITE_DONE]
  · intro hf hdone
    simp [Statement.exec, sqlite3_step, sqlite3_changes, hs, hf, hdone]
  · intro code hf hrow hdone
    simp [Statement.exec, sqlite3_step, hs, hf, hrow, hdone]
  · intro hf hrow
    simp [StatementExecutor.exec, StatementExecutor.tryExecuteStep, sqlite3_step,
      he, hf, hrow, SQLITE_ROW, SQLITE_DONE]
  · intro hf hdone
    simp [StatementExecutor.exec, StatementExecutor.tryExecuteStep, sqlite3_step,
      sqlite3_changes, he, hf, hdone, SQLITE_ROW, SQLITE_DONE]
  · intro code hf hrow hdone
    simp [StatementExecutor.exec, StatementExecutor.tryExecuteStep, sqlite3_step,
      sqlite3_errcode, he, hf, hrow, hdone]

/-- C5 witness: a one-row query rejected by `exec()`, and a finished
statement returning the change count. -/
theorem exec_branch_behaviour_witness :
    Statement.exec
        { native := sampleNative, mColumnCount := 1, mColumnNames := [],
          mbOk := false, mbDone := false }
      = Except.error
          (Exception.fromMessage "exec() does not expect results. Use executeStep.")
    ∧ StatementExecutor.exec
        { native := { sampleNative with pos := 1 }, mbHasRow := false, mbDone := false }
      = Except.ok (0, { native := { sampleNative with pos := 2, conn := { emptyConn with changes := 0 } }, mbHasRow := false, mbDone := true }) := by
  have h := exec_branch_behaviour
    { native := sampleNative, mColumnCount := 1, mColumnNames := [],
      mbOk := false, mbDone := false }
    { native := { sampleNative with pos := 1 }, mbHasRow := false, mbDone := false }
    rfl rfl
  exact ⟨h.1 rfl (by decide), h.2.2.2.2.1 rfl (by decide)⟩

/-- Looking up a key after an insert-or-overwrite: the key just set maps
to its new value, every other key is unaffected. -/
theorem assocFind_assocSet (m : List (String × Int)) (k : String) (v : Int) (k' : String) :
    assocFind (assocSet m k v) k' = if k' = k then some v else assocFind m k' := by
  induction m with
  | nil =>
    by_cases h : k = k'
    · subst h
      simp [assocSet, assocFind]
    · simp [assocSet, assocFind, h, Ne.symm h]
  | cons hd tl ih =>
    obtain ⟨k0, v0⟩ := hd
    by_cases h0 : k0 = k
    · subst h0
      by_cases h1 : k0 = k'
      · subst h1
        simp [assocSet, assocFind]
      · simp [assocSet, assocFind, h1, Ne.symm h1]
    · by_cases h1 : k0 = k'
      · subst h1
        simp [assocSet, assocFind, h0]
      · simp only [assocSet, if_neg h0, assocFind, if_neg h1]
        exact ih

/-- Looking up after the name-map build loop: a key is found exactly when
it was found before the loop or some loop index names it. -/
theorem assocFind_isSome_foldl (f : Nat → String) (l : List Nat)
    (m : List (String × Int)) (k : String) :
    (assocFind (l.foldl (fun acc i => assocSet acc (f i) (Int.ofNat i)) m) k).isSome
      = ((assocFind m k).isSome || l.any fun i => decide (f i = k)) := by
  induction l generalizing m with
  | nil => simp
  | cons i tl ih =>
    simp only [List.foldl_cons, List.any_cons]
    rw [ih, assocFind_assocSet]
    by_cases h : k = f i
    · simp [h]
    · have h' : ¬ f i = k := fun hh => h hh.symm
      simp [h, h']

/-- A name occurs among the first `l.length` column names exactly when it
is a member of the list of column names. -/
theorem any_range_getD (l : List String) (k : String) :
    ((List.range l.length).any fun i => decide (l.getD i "" = k)) = decide (k ∈ l) := by
  rw [Bool.eq_iff_iff]
  simp only [List.any_eq_true, List.mem_range, decide_eq_true_eq]
  constructor
  · rintro ⟨i, hi, hget⟩
    rw [List.getD_eq_getElem l "" hi] at hget
    exact hget ▸ List.getElem_mem hi
  · intro hmem
    obtain ⟨i, hi, hget⟩ := List.mem_iff_getElem.mp hmem
    exact ⟨i, hi, by rw [List.getD_eq_getElem l "" hi]; exact hget⟩

/-- The lazily built column-name map of a statement finds a name exactly
when it is one of the statement's column names. -/
theorem buildColumnNames_isSome (n : NativeStmt) (k : String) :
    (assocFind (buildColumnNames n (sqlite3_column_count n)) k).isSome
      = decide (k ∈ n.columnNames) := by
  unfold buildColumnNames sqlite3_column_count
  rw [assocFind_isSome_foldl]
  simp only [assocFind, Option.isSome_none, Bool.false_or, Int.toNat_natCast]
  have hname : ∀ i : Nat, sqlite3_column_name n (Int.ofNat i) = n.columnNames.getD i "" := by
    intro i
    simp [sqlite3_column_name]
  calc ((List.range n.columnNames.length).any
          fun i => decide (sqlite3_column_name n (Int.ofNat i) = k))
      = ((List.range n.columnNames.length).any
          fun i => decide (n.columnNames.getD i "" = k)) := by
        refine congrArg _ (funext fun i => ?_)
        rw [hname i]
    _ = decide (k ∈ n.columnNames) := any_range_getD n.columnNames k

/-- C6: on a freshly prepared Statement (empty name cache, cached column
count), `getColumn` by index succeeds exactly in the HasRow state with an
index inside `[0, column count)`, `getColumn` by name succeeds exactly in
the HasRow state with one of the statement's column names, and on success
the result is a Column view sharing the statement handle. -/
theorem getColumn_requires_row_and_range (s : Statement) (aIndex : Int) (apName : String)
    (hmap : s.mColumnNames = [])
    (hcount : s.mColumnCount = sqlite3_column_count s.native) :
    ((s.getColumn aIndex).isOk = true ↔
      (s.mbOk = true ∧ 0 ≤ aIndex ∧ aIndex < s.mColumnCount))
    ∧ ((s.getColumnByName apName).isOk = true ↔
      (s.mbOk = true ∧ apName ∈ s.native.columnNames))
    ∧ (s.mbOk = true → 0 ≤ aIndex → aIndex < s.mColumnCount →
      s.getColumn aIndex = Except.ok { handle := s.native, index := aIndex }) := by
  refine ⟨?_, ?_, ?_⟩
  · cases hok : s.mbOk with
    | false =>
      simp [Statement.getColumn, Statement.checkRow, hok, Except.isOk, Except.toBool]
    | true =>
      by_cases hidx : aIndex < 0 ∨ aIndex ≥ s.mColumnCount
      · have : ¬ (0 ≤ aIndex ∧ aIndex < s.mColumnCount) := by omega
        simp [Statement.getColumn, Statement.checkRow, Statement.checkIndex, hok, hidx,
          Except.isOk, Except.toBool, this]
      · have : 0 ≤ aIndex ∧ aIndex < s.mColumnCount := by
          push_neg at hidx
          omega
        simp [Statement.getColumn, Statement.checkRow, Statement.checkIndex, hok, hidx,
          Except.isOk, Except.toBool, this]
  · cases hok : s.mbOk with
    | false =>
      simp [Statement.getColumnByName, Statement.checkRow, hok, Except.isOk, Except.toBool]
    | true =>
      have hfind := buildColumnNames_isSome s.native apName
      cases hf : assocFind (buildColumnNames s.native (sqlite3_column_count s.native)) apName with
      | none =>
        rw [hf] at hfind
        simp only [Option.isSome_none] at hfind
        have hmem : ¬ apName ∈ s.native.columnNames := by
          intro hm
          rw [decide_eq_true hm] at hfind
          exact Bool.noConfusion hfind
        simp [Statement.getColumnByName, Statement.checkRow, hok, hmap, hcount, hf,
          Except.isOk, Except.toBool, hmem]
      | some i =>
        rw [hf] at hfind
        simp only [Option.isSome_some] at hfind
        have hmem : apName ∈ s.native.columnNames := by
          by_contra hm
          rw [decide_eq_false hm] at hfind
          exact Bool.noConfusion hfind.symm
        simp [Statement.getColumnByName, Statement.checkRow, hok, hmap, hcount, hf,
          Except.isOk, Except.toBool, hmem]
  · intro hok h0 hlt
    have hidx : ¬ (aIndex < 0 ∨ aIndex ≥ s.mColumnCount) := by omega
    simp [Statement.getColumn, Statement.checkRow, Statement.checkIndex, hok, hidx]

/-- C6 witness: a statement on a row can fetch column 0 by index and
"id" by name; a name that is no column fails. -/
theorem getColumn_requires_row_and_range_witness :
    Statement.getColumn
        { native := sampleNative, mColumnCount := 1, mColumnNames := [],
          mbOk := true, mbDone := false } 0
      = Except.ok { handle := sampleNative, index := 0 }
    ∧ (Statement.getColumnByName
        { native := sampleNative, mColumnCount := 1, mColumnNames := [],
          mbOk := true, mbDone := false } "id").isOk = true := by
  have h := getColumn_requires_row_and_range
    { native := sampleNative, mColumnCount := 1, mColumnNames := [],
      mbOk := true, mbDone := false } 0 "id" rfl (by decide)
  refine ⟨h.2.2 rfl (by decide) (by decide), h.2.1.mpr ⟨rfl, ?_⟩⟩
  simp [sampleNative]

/-- C7 counterexample: when the native open call fails with code 14
(SQLITE_CANTOPEN), the constructor throws the message-only exception
built from `sqlite3_errstr`, whose error-code accessor returns the
sentinel -1, not 14; and a negative (hence non-zero) busy-timeout
argument is not applied after a successful open. -/
theorem database_construct_claim_counterexample :
    Database.construct 14 emptyConn allOkEngine 0
      = Except.error (Exception.fromMessage (sqlite3_errstr 14))
    ∧ (Exception.fromMessage (sqlite3_errstr 14)).getErrorCode = -1
    ∧ ¬ (Exception.fromMessage (sqlite3_errstr 14)).getErrorCode = 14
    ∧ Database.construct SQLITE_OK emptyConn allOkEngine (-5)
      = Except.ok { conn := emptyConn, execResult := allOkEngine, execLog := [] }
    ∧ emptyConn.busyTimeout = 0 := by
  refine ⟨rfl, rfl, by decide, ?_, rfl⟩
  rfl

/-- C7 (amended): on a failed native open the Database is not constructed
and the thrown error is the message-only exception carrying the failure
code's `sqlite3_errstr` text, with the sentinel -1 as its error code; on
a successful open the busy timeout is applied exactly when the argument
is positive. -/
theorem database_construct_amended (openRet : Int) (conn : NativeConn)
    (engine : String → Int) (aBusyTimeoutMs : Int) :
    (openRet ≠ SQLITE_OK →
      Database.construct openRet conn engine aBusyTimeoutMs
        = Except.error (Exception.fromMessage (sqlite3_errstr openRet))
      ∧ (Exception.fromMessage (sqlite3_errstr openRet)).getErrorCode = -1)
    ∧ (openRet = SQLITE_OK → aBusyTimeoutMs > 0 →
      Database.construct openRet conn engine aBusyTimeoutMs
        = Except.ok { conn := { conn with busyTimeout := aBusyTimeoutMs }, execResult := engine, execLog := [] })
    ∧ (openRet = SQLITE_OK → ¬ aBusyTimeoutMs > 0 →
      Database.construct openRet conn engine aBusyTimeoutMs
        = Except.ok { conn := conn, execResult := engine, execLog := [] }) := by
  refine ⟨?_, ?_, ?_⟩
  · intro hne
    exact ⟨by simp [Database.construct, hne], rfl⟩
  · intro hok hpos
    simp [Database.construct, sqlite3_busy_timeout, hok, hpos]
  · intro hok hneg
    simp [Database.construct, hok, hneg]

/-- C7 (amended) witness: failing open with code 14, and successful open
with a positive timeout. -/
theorem database_construct_amended_witness :
    Database.construct 14 emptyConn allOkEngine 0
      = Except.error (Exception.fromMessage (sqlite3_errstr 14))
    ∧ Database.construct SQLITE_OK emptyConn allOkEngine 250
      = Except.ok { conn := { emptyConn with busyTimeout := 250 }, execResult := allOkEngine, execLog := [] } := by
  have h := database_construct_amended 14 emptyConn allOkEngine 0
  have h2 := database_construct_amended SQLITE_OK emptyConn allOkEngine 250
  exact ⟨(h.1 (by decide)).1, h2.2.1 rfl (by decide)⟩

/-- C10 witness: a NULL column yields the default, a text column yields
its text. -/
theorem column_getText_default_witness :
    Column.getText { handle := sampleNative, index := 5 } "fallback" = "fallback"
    ∧ Column.getText
        { handle := { sampleNative with pos := 1 }, index := 0 } "fallback" = "2" := by
  constructor
  · exact ((column_getText_default { handle := sampleNative, index := 5 } "fallback").1
      (by decide)).1
  · exact ((column_getText_default
      { handle := { sampleNative with pos := 1 }, index := 0 } "fallback").2
      (by decide)).2

end SQLite
